import Mathlib

/-!
Shallow embedding of the vaga_certa repository's validation and compatibility
kernels, for checking the natural-language specification against the code.

Source files embedded here:
* src/vaga_certa/backend/utils/validation.py
  (validate_and_score_job_content, validate_and_score_job_details)
* src/vaga_certa_v2/backend/utils/compatibility.py
  (_normalize_text, _extract_tokens, _extract_keywords, calculate_compatibility)
* src/vaga_certa_v2/backend/agents/generation_agent.py
  (GenerationAgent._parse_generated_content)

Modelling conventions:
* Python strings are Lean Strings (sequences of Unicode code points, matching
  Python's len/slicing semantics code point by code point).
* Python int arithmetic is Nat/Int arithmetic (no overflow in Python).
* Python floats are modelled as rationals.  The two float roundings the code
  performs (round(x) and round(x, 3), both round-half-to-even in Python) are
  modelled by exact rational round-half-to-even.  For the quantities the code
  rounds (quotients m/k with k ≤ 30, scaled by 40 or 1000) the double-precision
  value is far closer to the exact rational than to any rounding boundary, and
  the exact tie cases (k = 16) are representable exactly in binary, so the
  rational model agrees with the float computation.
* Comparisons of diversity ratios against the literals 0.5 and 0.3 are modelled
  as exact rational comparisons against 1/2 and 3/10.
-/

set_option maxRecDepth 20000

/-- The whitespace set of Python's str.strip()/str.split()/`\s` for the ASCII
range: space, tab, newline, carriage return, vertical tab, form feed.
(Python also strips some non-ASCII Unicode spaces; the embedding covers the
ASCII range.) -/
def isPyWs (c : Char) : Bool :=
  c == ' ' || c == '\t' || c == '\n' || c == '\r' ||
  c == Char.ofNat 11 || c == Char.ofNat 12

/-- Python str.lower(), code point by code point, for the ASCII and Latin-1
letters (the ranges exercised by this repository's keyword lists).  Uppercase
ASCII letters and the Latin-1 accented capitals À..Þ (except ×) map to their
lowercase forms 32 code points higher; everything else is unchanged. -/
def pyLowerChar (c : Char) : Char :=
  if 65 ≤ c.toNat ∧ c.toNat ≤ 90 then Char.ofNat (c.toNat + 32)
  else if 192 ≤ c.toNat ∧ c.toNat ≤ 222 ∧ c.toNat ≠ 215 then Char.ofNat (c.toNat + 32)
  else c

/-- Python str.lower() on a whole string. -/
def pyLower (s : String) : String := ⟨s.data.map pyLowerChar⟩

/-- Python str.strip() on a character list. -/
def pyStrip (l : List Char) : List Char :=
  ((l.dropWhile isPyWs).reverse.dropWhile isPyWs).reverse

/-- Python str.strip() on a string. -/
def pyStripS (s : String) : String := ⟨pyStrip s.data⟩

/-- Python substring containment (`needle in haystack`). -/
def containsSub (n : List Char) : List Char → Bool
  | [] => n.isEmpty
  | c :: t => n.isPrefixOf (c :: t) || containsSub n t

/-- Index of the first occurrence of `n` in the haystack, offset by `i`
(helper for Python str.find). -/
def findSubAux (n : List Char) : List Char → Nat → Option Nat
  | [], i => if n.isEmpty then some i else none
  | c :: t, i => if n.isPrefixOf (c :: t) then some i else findSubAux n t (i + 1)

/-- Python str.find(sub): index of first occurrence, or none for -1. -/
def pyFind (haystack needle : String) : Option Nat :=
  findSubAux needle.data haystack.data 0

/-- Python str.find(sub, start): search restricted to positions ≥ start. -/
def pyFindFrom (haystack needle : String) (start : Nat) : Option Nat :=
  (findSubAux needle.data (haystack.data.drop start) 0).map (· + start)

/-- Python str.split() (no argument): split on whitespace runs, no empty
pieces.  `acc` holds the current word reversed. -/
def pySplitWsAux : List Char → List Char → List (List Char)
  | [], acc => if acc.isEmpty then [] else [acc.reverse]
  | c :: t, acc =>
    if isPyWs c then
      if acc.isEmpty then pySplitWsAux t [] else acc.reverse :: pySplitWsAux t []
    else pySplitWsAux t (c :: acc)

/-- Python str.split() on a character list. -/
def pySplitWs (l : List Char) : List (List Char) := pySplitWsAux l []

/-- First-occurrence deduplication (Python dict.fromkeys / set-membership
testing against insertion order); `seen` accumulates elements already kept. -/
def dedupAux {α : Type} [DecidableEq α] : List α → List α → List α
  | [], _ => []
  | x :: r, seen => if x ∈ seen then dedupAux r seen else x :: dedupAux r (x :: seen)

/-- First-occurrence deduplication of a list. -/
def dedupFirst {α : Type} [DecidableEq α] (l : List α) : List α := dedupAux l []

/-- compatibility.py `_normalize_text`, code point by code point:
`unicodedata.normalize("NFKD", value).encode("ascii", "ignore")`.
ASCII code points are kept unchanged.  The Latin-1 accented letters decompose
under NFKD into an ASCII base letter plus combining marks, and the ascii-ignore
encoding keeps only the base letter, so they map to their base letter here.
Any other non-ASCII code point contributes no ASCII output and is dropped.
(Non-letter compatibility decompositions such as superscript digits are outside
the repository's input alphabet and are modelled as dropped.) -/
def nfkdAsciiChar (c : Char) : List Char :=
  if c.toNat < 128 then [c]
  else match c with
  | 'À' | 'Á' | 'Â' | 'Ã' | 'Ä' | 'Å' => ['A']
  | 'Ç' => ['C']
  | 'È' | 'É' | 'Ê' | 'Ë' => ['E']
  | 'Ì' | 'Í' | 'Î' | 'Ï' => ['I']
  | 'Ñ' => ['N']
  | 'Ò' | 'Ó' | 'Ô' | 'Õ' | 'Ö' => ['O']
  | 'Ù' | 'Ú' | 'Û' | 'Ü' => ['U']
  | 'Ý' => ['Y']
  | 'à' | 'á' | 'â' | 'ã' | 'ä' | 'å' => ['a']
  | 'ç' => ['c']
  | 'è' | 'é' | 'ê' | 'ë' => ['e']
  | 'ì' | 'í' | 'î' | 'ï' => ['i']
  | 'ñ' => ['n']
  | 'ò' | 'ó' | 'ô' | 'õ' | 'ö' => ['o']
  | 'ù' | 'ú' | 'û' | 'ü' => ['u']
  | 'ý' | 'ÿ' => ['y']
  | _ => []

/-- compatibility.py `_normalize_text`. -/
def normalize_text (value : String) : String := ⟨value.data.flatMap nfkdAsciiChar⟩

/-- Character class of the token regex `[a-z0-9\+#\.]` in `_extract_tokens`. -/
def isTokenChar (c : Char) : Bool :=
  (97 ≤ c.toNat && c.toNat ≤ 122) || (48 ≤ c.toNat && c.toNat ≤ 57) ||
  c == '+' || c == '#' || c == '.'

/-- `re.findall(r"[a-z0-9\+#\.]{3,}", s)`: the maximal runs of token-class
characters, keeping those of length ≥ 3.  `acc` holds the current run
reversed. -/
def tokenRunsAux : List Char → List Char → List (List Char)
  | [], acc => if 3 ≤ acc.length then [acc.reverse] else []
  | c :: t, acc =>
    if isTokenChar c then tokenRunsAux t (c :: acc)
    else if 3 ≤ acc.length then acc.reverse :: tokenRunsAux t []
    else tokenRunsAux t []

/-- All regex matches of `[a-z0-9\+#\.]{3,}` in a character list. -/
def tokenRuns (l : List Char) : List (List Char) := tokenRunsAux l []

/-- compatibility.py `_STOPWORDS`. -/
def STOPWORDS : List String :=
  ["para", "com", "that", "with", "from", "sobre", "onde", "quando", "como",
   "have", "this", "your", "will", "de", "das", "dos", "the", "and", "por",
   "uma", "mais", "than", "then", "elas", "eles", "possui", "possuir",
   "atividades", "responsabilidades", "requirements", "requisitos",
   "qualificacoes"]

/-- compatibility.py `_extract_tokens`: normalize, lowercase, take the regex
tokens, drop stopwords. -/
def extractTokens (value : String) : List String :=
  ((tokenRuns ((normalize_text value).data.map pyLowerChar)).map
    (fun l => (⟨l⟩ : String))).filter (fun t => ¬ t ∈ STOPWORDS)

/-- The items of `collections.Counter(tokens)`: each distinct token in
first-occurrence order, paired with its number of occurrences. -/
def counterItems (tokens : List String) : List (String × Nat) :=
  (dedupFirst tokens).map (fun t => (t, tokens.count t))

/-- Stable insertion (descending by count) used to model
`Counter.most_common`: an element is placed after all existing elements whose
count is ≥ its own, preserving first-occurrence order among ties. -/
def insertDesc (x : String × Nat) : List (String × Nat) → List (String × Nat)
  | [] => [x]
  | y :: r => if y.2 < x.2 then x :: y :: r else y :: insertDesc x r

/-- `Counter.most_common()`: items sorted by count descending, ties kept in
insertion (first-occurrence) order — Python's sorted/heapq.nlargest are stable
in exactly this way. -/
def sortDesc (l : List (String × Nat)) : List (String × Nat) :=
  l.foldl (fun acc x => insertDesc x acc) []

/-- Round half to even (Python's built-in round), on rationals.
`f = q.num / (q.den : ℤ)` is `⌊q⌋` (the denominator is positive and Lean's
Int division is Euclidean), and `r2 = 2·(q.num − f·q.den)` compares the
fractional part of `q` against 1/2 by cross-multiplication:
`q − f < 1/2 ↔ r2 < q.den`. -/
def rhe (q : ℚ) : ℤ :=
  let f : ℤ := q.num / (q.den : ℤ)
  let r2 : ℤ := 2 * (q.num - f * (q.den : ℤ))
  if r2 < (q.den : ℤ) then f
  else if (q.den : ℤ) < r2 then f + 1
  else if f % 2 = 0 then f else f + 1

/-- Python `round(q * m)` for a natural scale factor `m`:
`mkRat (q.num * m) q.den` is the exact rational value `q * m`. -/
def rheMulNat (q : ℚ) (m : Nat) : ℤ := rhe (mkRat (q.num * m) q.den)

/-- Python `round(q, 3)`: round half to even at the third decimal;
`mkRat (round(q·1000)) 1000` is the exact rational value `round(q·1000)/1000`. -/
def round3 (q : ℚ) : ℚ := mkRat (rheMulNat q 1000) 1000

/-- compatibility.py `CompatibilityInsights` dataclass. -/
structure CompatibilityInsights where
  score : Nat
  label : String
  strengths : List String
  gaps : List String
  coverage_ratio : ℚ
deriving DecidableEq, Repr

/-- compatibility.py `calculate_compatibility`.  `job_counter` plays the role
of `Counter(tokens)` (insertion-ordered items with counts), `cv_keywords` the
role of the résumé keyword set (first-occurrence deduplicated tokens; only
membership is used).  `ranked_job_keywords` is `most_common(30)` restricted to
the keywords; as Counter keys are distinct, its length is the size of the
Python set `job_keywords`, and `matched`/`missing` list its elements belonging
(resp. not belonging) to the résumé set. -/
def calculate_compatibility (cv job_description : String) : CompatibilityInsights :=
  let job_counter := counterItems (extractTokens job_description)
  let cv_keywords := dedupFirst (extractTokens cv)
  if job_counter.isEmpty then
    ⟨50, "Dados insuficientes", [], [], 0⟩
  else
    let ranked_job_keywords := ((sortDesc job_counter).take 30).map Prod.fst
    if ranked_job_keywords.length < 5 ∨ (job_counter.map Prod.snd).sum < 10 then
      ⟨50, "Dados insuficientes", [], ranked_job_keywords.take 5, 0⟩
    else
      let matched := ranked_job_keywords.filter (fun kw => kw ∈ cv_keywords)
      let missing := ranked_job_keywords.filter (fun kw => ¬ kw ∈ cv_keywords)
      let coverage_ratio : ℚ :=
        mkRat matched.length (max 1 ranked_job_keywords.length)
      let match_points := min 60 (matched.length * 12)
      let coverage_points := min 40 (rheMulNat coverage_ratio 40).toNat
      let score := max 5 (match_points + coverage_points)
      let label :=
        if 75 ≤ score then "Alta compatibilidade"
        else if 45 ≤ score then "Compatibilidade moderada"
        else "Compatibilidade baixa"
      let strengths :=
        (((sortDesc job_counter).map Prod.fst).filter (fun kw => kw ∈ matched)).take 5
      let gaps :=
        (((sortDesc job_counter).map Prod.fst).filter (fun kw => kw ∈ missing)).take 5
      ⟨score, label, strengths, gaps, round3 coverage_ratio⟩

/-- validation.py `ValidationResult` dataclass. -/
structure ValidationResult where
  is_valid : Bool
  score : Nat
  reasons : List String
deriving DecidableEq, Repr

/-- validation.py `_normalize_generic_term`:
`re.sub(r"[^a-z0-9]+", "", value.lower())` — lowercase, then keep only the
characters a-z and 0-9. -/
def _normalize_generic_term (value : String) : String :=
  ⟨(pyLower value).data.filter
    (fun c => (97 ≤ c.toNat && c.toNat ≤ 122) || (48 ≤ c.toNat && c.toNat ≤ 57))⟩

/-- Structural layer of `validate_and_score_job_content`: points by length
band of the stripped content. -/
def structuralPoints (length : Nat) : Nat :=
  if length < 500 then 0
  else if length < 1000 then 10
  else if length < 3000 then 20
  else 30

/-- Structural layer reason string. -/
def structuralReason (length : Nat) : String :=
  if length < 500 then
    "Conteúdo muito curto (" ++ toString length ++ " chars, mínimo 500)"
  else if length < 1000 then "Tamanho aceitável mas curto"
  else if length < 3000 then "Tamanho adequado"
  else "Tamanho excelente"

/-- validation.py `critical_keywords`. -/
def critical_keywords : List String :=
  ["responsibilities", "requirements", "qualifications", "experience",
   "responsabilidades", "requisitos", "qualificações", "experiência"]

/-- validation.py `context_keywords`. -/
def context_keywords : List String :=
  ["apply", "application", "candidate", "candidatar", "aplicar",
   "join", "team", "position", "role", "vaga", "cargo", "equipe"]

/-- `found_critical`: number of critical keywords occurring (as substrings) in
the lowercased content. -/
def foundCritical (content_lower : String) : Nat :=
  (critical_keywords.filter (fun kw => containsSub kw.data content_lower.data)).length

/-- `found_context`: number of context keywords occurring in the lowercased
content. -/
def foundContext (content_lower : String) : Nat :=
  (context_keywords.filter (fun kw => containsSub kw.data content_lower.data)).length

/-- `critical_score = min(20, found_critical * 5)`. -/
def criticalScorePts (found : Nat) : Nat := min 20 (found * 5)

/-- `context_score = min(20, found_context * 2)`. -/
def contextScorePts (found : Nat) : Nat := min 20 (found * 2)

/-- Semantic-layer reason for critical keywords. -/
def criticalReason (found : Nat) : String :=
  toString found ++ "/8 palavras-chave críticas encontradas (" ++
    toString (criticalScorePts found) ++ " pts)"

/-- Semantic-layer reason for context keywords. -/
def contextReason (found : Nat) : String :=
  toString found ++ "/12 palavras de contexto encontradas (" ++
    toString (contextScorePts found) ++ " pts)"

/-- `words = [w for w in content.split() if len(w) > 3]`. -/
def longWords (content : String) : List (List Char) :=
  (pySplitWs content.data).filter (fun w => 3 < w.length)

/-- `unique_words = set(w.lower() for w in words)` — its size is the number of
distinct lowercased long words. -/
def uniqueLongWords (content : String) : List (List Char) :=
  dedupFirst ((longWords content).map (fun w => w.map pyLowerChar))

/-- `diversity_ratio = len(unique_words) / len(words)`. -/
def diversity_ratio (content : String) : ℚ :=
  mkRat (uniqueLongWords content).length (longWords content).length

/-- Heuristic-layer diversity points: >0.5 → 15, >0.3 → 8, else 0 (only
evaluated when there is at least one word longer than 3 characters). -/
def diversityPoints (content : String) : Nat :=
  if (longWords content).isEmpty then 0
  else if mkRat 1 2 < diversity_ratio content then 15
  else if mkRat 3 10 < diversity_ratio content then 8
  else 0

/-- Python `f"{q*100:.1f}"` for a nonnegative rational `q` (the percentage
with one decimal, rounded half to even): `round(q·1000)` tenths of a
percent. -/
def pctFmt (q : ℚ) : String :=
  let tenths := rheMulNat q 1000
  toString (tenths / 10) ++ "." ++ toString (tenths % 10)

/-- Heuristic-layer diversity reason (only appended when there is at least one
word longer than 3 characters). -/
def diversityReason (content : String) : String :=
  if mkRat 1 2 < diversity_ratio content then
    "Boa diversidade lexical (" ++ pctFmt (diversity_ratio content) ++ "%)"
  else if mkRat 3 10 < diversity_ratio content then
    "Diversidade lexical moderada (" ++ pctFmt (diversity_ratio content) ++ "%)"
  else
    "Baixa diversidade lexical (" ++ pctFmt (diversity_ratio content) ++
      "%) - possível texto repetitivo"

/-- validation.py `error_indicators`. -/
def error_indicators : List String :=
  ["page not found", "404", "error", "not available",
   "página não encontrada", "erro", "indisponível", "access denied"]

/-- `has_errors = any(indicator in content_lower for indicator in
error_indicators)`. -/
def hasErrorIndicators (content_lower : String) : Bool :=
  error_indicators.any (fun ind => containsSub ind.data content_lower.data)

/-- One step of `re.search(r"[-•*]\s|^\d+\.\s", content, re.MULTILINE)` at the
head of `l`: a bullet character followed by a whitespace character. -/
def bulletAt (l : List Char) : Bool :=
  match l with
  | c :: c2 :: _ => (c == '-' || c == '•' || c == '*') && isPyWs c2
  | _ => false

/-- `^\d+\.\s` at the head of `l` (one or more digits, a dot, a whitespace
character). -/
def numberedAt (l : List Char) : Bool :=
  let ds := l.takeWhile Char.isDigit
  let rest := l.dropWhile Char.isDigit
  !ds.isEmpty &&
    (match rest with
     | '.' :: c :: _ => isPyWs c
     | _ => false)

/-- Scan of `re.search(r"[-•*]\s|^\d+\.\s", content, re.MULTILINE)`: the first
alternative may match at any position, the second only at the start of the
string or right after a newline. -/
def hasListStructureAux : List Char → Bool → Bool
  | [], _ => false
  | c :: t, atLineStart =>
    bulletAt (c :: t) || (atLineStart && numberedAt (c :: t)) ||
      hasListStructureAux t (c == '\n')

/-- `has_list_structure`. -/
def hasListStructure (content : List Char) : Bool :=
  hasListStructureAux content true

/-- validation.py `validate_and_score_job_content`: the multi-layer content
scorer.  Empty/whitespace-only content is rejected immediately; otherwise the
structural, semantic and heuristic layers accumulate score and reasons in
evaluation order.  `score4 - 30` is Nat subtraction, i.e. Python's
`max(0, score - 30)`. -/
def validate_and_score_job_content (content : String) : ValidationResult :=
  if content = "" ∨ (pyStripS content).length = 0 then
    ⟨false, 0, ["Conteúdo vazio"]⟩
  else
    let length := (pyStripS content).length
    let score1 := structuralPoints length
    let reasons1 := [structuralReason length]
    let content_lower := pyLower content
    let fc := foundCritical content_lower
    let score2 := score1 + criticalScorePts fc
    let reasons2 := reasons1 ++ [criticalReason fc]
    let fx := foundContext content_lower
    let score3 := score2 + contextScorePts fx
    let reasons3 := reasons2 ++ [contextReason fx]
    let score4 := score3 + diversityPoints content
    let reasons4 := reasons3 ++
      (if (longWords content).isEmpty then [] else [diversityReason content])
    let has_errors := hasErrorIndicators content_lower
    let score5 := if has_errors then score4 - 30 else score4 + 15
    let reasons5 := reasons4 ++
      [if has_errors then "⚠️ Detectados indicadores de erro na página"
       else "Nenhum indicador de erro detectado"]
    let has_list := hasListStructure content.data
    let score6 := if has_list then min 100 (score5 + 5) else score5
    let reasons6 := reasons5 ++
      (if has_list then ["✓ Estrutura de lista detectada (típico de vagas)"] else [])
    ⟨30 ≤ score6, score6, reasons6⟩

/-- validation.py `generic_terms`. -/
def generic_terms : List String :=
  ["not found", "n/a", "na", "unknown", "tbd", "to be determined",
   "não encontrado", "desconhecido", "error", "none", "null", "company"]

/-- `normalized_generics = {_normalize_generic_term(term) for term in
generic_terms}` (only membership is used, so a list models the set). -/
def normalized_generics : List String :=
  generic_terms.map _normalize_generic_term

/-- Title length band of `validate_and_score_job_details`: +50 when the
lowercased stripped title has 5 to 100 characters, else 0. -/
def titlePoints (title_lower_len : Nat) : Nat :=
  if title_lower_len < 5 then 0
  else if 100 < title_lower_len then 0
  else 50

/-- Title band reason string. -/
def titleReason (job_title : String) (title_lower_len : Nat) : String :=
  if title_lower_len < 5 then "Título muito curto: \"" ++ job_title ++ "\""
  else if 100 < title_lower_len then "Título muito longo: \"" ++ job_title ++ "\""
  else "✓ Título válido"

/-- Company length band: +50 when the lowercased stripped company name has 2
to 100 characters, else 0. -/
def companyPoints (company_lower_len : Nat) : Nat :=
  if company_lower_len < 2 then 0
  else if 100 < company_lower_len then 0
  else 50

/-- Company band reason string. -/
def companyReason (company : String) (company_lower_len : Nat) : String :=
  if company_lower_len < 2 then
    "Nome da empresa muito curto: \"" ++ company ++ "\""
  else if 100 < company_lower_len then
    "Nome da empresa muito longo: \"" ++ company ++ "\""
  else "✓ Empresa válida"

/-- validation.py `validate_and_score_job_details`: title/company validator
with generic-term blacklist.  A missing or blacklisted title (resp. company)
returns immediately with score 0 and a single reason; otherwise each field
contributes its length-band points and reason, and validity requires
`score >= 90`. -/
def validate_and_score_job_details (job_title company : String) : ValidationResult :=
  let title_lower := pyStripS (pyLower job_title)
  let company_lower := pyStripS (pyLower company)
  if job_title = "" ∨ title_lower.length = 0 then
    ⟨false, 0, ["Título da vaga ausente"]⟩
  else if _normalize_generic_term job_title ∈ normalized_generics then
    ⟨false, 0, ["Título genérico/inválido: \"" ++ job_title ++ "\""]⟩
  else
    let scoreT := titlePoints title_lower.length
    let reasonT := titleReason job_title title_lower.length
    if company = "" ∨ company_lower.length = 0 then
      ⟨false, 0, ["Nome da empresa ausente"]⟩
    else if _normalize_generic_term company ∈ normalized_generics then
      ⟨false, 0, ["Empresa genérica/inválida: \"" ++ company ++ "\""]⟩
    else
      let scoreC := companyPoints company_lower.length
      let reasonC := companyReason company company_lower.length
      let score := scoreT + scoreC
      ⟨90 ≤ score, score, [reasonT, reasonC]⟩

/-- The semantic layer of `validate_and_score_job_content`: critical-keyword
points plus context-keyword points. -/
def semanticPoints (content : String) : Nat :=
  criticalScorePts (foundCritical (pyLower content)) +
    contextScorePts (foundContext (pyLower content))

/-- The content score accumulated by the structural, semantic and diversity
layers (before the error-indicator adjustment). -/
def contentBase (content : String) : Nat :=
  structuralPoints (pyStripS content).length +
    criticalScorePts (foundCritical (pyLower content)) +
    contextScorePts (foundContext (pyLower content)) +
    diversityPoints content

/-- The content score after the error-indicator step: −30 (floored at 0, via
Nat subtraction) on an error indicator, +15 otherwise. -/
def contentScoreAfterErrors (content : String) : Nat :=
  if hasErrorIndicators (pyLower content) then contentBase content - 30
  else contentBase content + 15

/-- The final content score: +5 capped at 100 when list structure is
detected. -/
def contentFinalScore (content : String) : Nat :=
  if hasListStructure content.data then min 100 (contentScoreAfterErrors content + 5)
  else contentScoreAfterErrors content

/-- The reasons produced for non-empty content, one per layer decision in
evaluation order; the diversity entry exists only when the content has a word
longer than 3 characters, and the list-structure entry only when list markup
is detected. -/
def contentReasons (content : String) : List String :=
  [structuralReason (pyStripS content).length,
   criticalReason (foundCritical (pyLower content)),
   contextReason (foundContext (pyLower content))] ++
  (if (longWords content).isEmpty then [] else [diversityReason content]) ++
  [if hasErrorIndicators (pyLower content) then
     "⚠️ Detectados indicadores de erro na página"
   else "Nenhum indicador de erro detectado"] ++
  (if hasListStructure content.data then
     ["✓ Estrutura de lista detectada (típico de vagas)"] else [])

/-- generation_agent.py: the four section markers, in iteration order. -/
def cvMarker : String := "### OPTIMIZED CV ###"

/-- Second section marker. -/
def clMarker : String := "### COVER LETTER ###"

/-- Third section marker. -/
def nmMarker : String := "### NETWORKING MESSAGE ###"

/-- Fourth section marker. -/
def itMarker : String := "### INTERVIEW TIPS ###"

/-- `_parse_generated_content`'s end index for a section: the position of the
next section's marker searched from `start_index` on, or the end of the
response when there is no next marker or it is not found. -/
def sectionEnd (resp : String) (nextMarker : Option String) (start_index : Nat) : Nat :=
  match nextMarker with
  | none => resp.length
  | some nm =>
    match pyFindFrom resp nm start_index with
    | none => resp.length
    | some e => e

/-- One iteration of `_parse_generated_content`'s loop: find the marker (a
missing marker yields the placeholder error string), slice from the end of the
marker to the section end, and strip. -/
def extractField (resp marker : String) (nextMarker : Option String) : String :=
  match pyFind resp marker with
  | none => "Erro: Seção " ++ marker ++ " não encontrada"
  | some start_index =>
    pyStripS ⟨(resp.data.take (sectionEnd resp nextMarker start_index)).drop
      (start_index + marker.length)⟩

/-- generation_agent.py `_parse_generated_content`'s result: always exactly
the four named fields. -/
structure GeneratedSections where
  optimizedCv : String
  coverLetter : String
  networkingMessage : String
  interviewTips : String
deriving DecidableEq, Repr

/-- generation_agent.py `GenerationAgent._parse_generated_content`: the loop
over the four (key, marker) pairs, unrolled (the loop never reassigns
`remaining_text`, so every iteration searches the full response). -/
def parse_generated_content (resp : String) : GeneratedSections :=
  ⟨extractField resp cvMarker (some clMarker),
   extractField resp clMarker (some nmMarker),
   extractField resp nmMarker (some itMarker),
   extractField resp itMarker none⟩

/-- A string of `n` copies of the character `c`. -/
def strRep (n : Nat) (c : Char) : String := ⟨List.replicate n c⟩

/-- The posting keywords in `most_common()` order (frequency descending,
ties by first occurrence). -/
def mostCommonKeywords (job : String) : List String :=
  (sortDesc (counterItems (extractTokens job))).map Prod.fst

/-- The top-30 posting keywords (`ranked_job_keywords`); since Counter keys
are distinct, its length is the size of the Python set `job_keywords`. -/
def rankedJobKeywords (job : String) : List String :=
  ((sortDesc (counterItems (extractTokens job))).take 30).map Prod.fst

/-- The résumé keyword set (`cv_keywords`; only membership is used). -/
def cvKeywordSet (cv : String) : List String := dedupFirst (extractTokens cv)

/-- `matched = job_keywords & cv_keywords`, listed in ranked order. -/
def matchedKeywords (cv job : String) : List String :=
  (rankedJobKeywords job).filter (fun kw => kw ∈ cvKeywordSet cv)

/-- `missing = job_keywords - cv_keywords`, listed in ranked order. -/
def missingKeywords (cv job : String) : List String :=
  (rankedJobKeywords job).filter (fun kw => ¬ kw ∈ cvKeywordSet cv)

/-- The main-path compatibility score:
`max(5, match_points + coverage_points)`. -/
def compatScoreOf (cv job : String) : Nat :=
  max 5 (min 60 ((matchedKeywords cv job).length * 12) +
    min 40 (rheMulNat
      (mkRat ((matchedKeywords cv job).length : Int)
        (max 1 (rankedJobKeywords job).length)) 40).toNat)

/-- The main-path label thresholds: ≥75 high, 45–74 moderate, else low. -/
def compatLabelOf (score : Nat) : String :=
  if 75 ≤ score then "Alta compatibilidade"
  else if 45 ≤ score then "Compatibilidade moderada"
  else "Compatibilidade baixa"

/-- `mkRat` over natural numerator and denominator is ordinary division
in ℚ. -/
theorem mkRat_nat_eq_div (a b : Nat) :
    mkRat (a : Int) b = (a : ℚ) / (b : ℚ) := by
  rw [Rat.mkRat_eq_divInt, Rat.divInt_eq_div]
  push_cast
  rfl

/-- `rheMulNat q m` really rounds the product `q * m`. -/
theorem rheMulNat_eq (q : ℚ) (m : Nat) : rheMulNat q m = rhe (q * m) := by
  unfold rheMulNat
  congr 1
  rw [Rat.mkRat_eq_divInt, Rat.divInt_eq_div]
  push_cast
  rw [mul_comm (q.num : ℚ) (m : ℚ), mul_div_assoc, Rat.num_div_den, mul_comm]

/-- `round3 q` is `round(q·1000)/1000`. -/
theorem round3_eq (q : ℚ) : round3 q = (rhe (q * 1000) : ℚ) / 1000 := by
  unfold round3
  rw [Rat.mkRat_eq_divInt, Rat.divInt_eq_div, rheMulNat_eq]
  norm_num

/-- The Euclidean division `q.num / q.den` used by `rhe` is the floor
of `q`. -/
theorem num_ediv_den (q : ℚ) : q.num / (q.den : ℤ) = ⌊q⌋ := by
  conv_rhs => rw [← Rat.num_div_den q]
  rw [Rat.floor_intCast_div_natCast]

/-- `rhe` returns the floor or the floor plus one. -/
theorem rhe_floor_cases (q : ℚ) : rhe q = ⌊q⌋ ∨ rhe q = ⌊q⌋ + 1 := by
  simp only [rhe, num_ediv_den]
  split
  · exact Or.inl rfl
  · split
    · exact Or.inr rfl
    · split
      · exact Or.inl rfl
      · exact Or.inr rfl

/-- Rounding a nonnegative rational is nonnegative. -/
theorem rhe_nonneg (q : ℚ) (h : 0 ≤ q) : 0 ≤ rhe q := by
  have hf : 0 ≤ ⌊q⌋ := Int.floor_nonneg.mpr h
  rcases rhe_floor_cases q with hc | hc <;> omega

/-- Rounding cannot overshoot an integer upper bound. -/
theorem rhe_le_intCast (q : ℚ) (n : ℤ) (h : q ≤ (n : ℚ)) : rhe q ≤ n := by
  have hfl : ⌊q⌋ ≤ n := by
    have := Int.floor_le_floor h
    rwa [Int.floor_intCast] at this
  simp only [rhe, num_ediv_den]
  split
  · exact hfl
  next hge =>
    have hr : (q.den : ℤ) ≤ 2 * (q.num - ⌊q⌋ * (q.den : ℤ)) := by omega
    have hden : (0 : ℚ) < (q.den : ℚ) := by exact_mod_cast q.pos
    have hrq : ((q.den : ℤ) : ℚ) ≤ ((2 * (q.num - ⌊q⌋ * (q.den : ℤ)) : ℤ) : ℚ) :=
      Int.cast_le.mpr hr
    push_cast at hrq
    have hq : q = (q.num : ℚ) / (q.den : ℚ) := (Rat.num_div_den q).symm
    have hhalf : (⌊q⌋ : ℚ) + 1/2 ≤ q := by
      conv_rhs => rw [hq]
      rw [le_div_iff₀ hden]
      nlinarith [hrq]
    have hltq : (⌊q⌋ : ℚ) < (n : ℚ) := by
      calc (⌊q⌋ : ℚ) < (⌊q⌋ : ℚ) + 1/2 := by norm_num
      _ ≤ q := hhalf
      _ ≤ (n : ℚ) := h
    have hlt : ⌊q⌋ < n := by exact_mod_cast hltq
    split
    · omega
    · split <;> omega

/-- Evaluation check: empty content is rejected immediately. -/
theorem eval_content_empty : validate_and_score_job_content ("") =
    ⟨false, 0, ["Conteúdo vazio"]⟩ := by decide

/-- Evaluation check: a fully marked response splits into its four
sections. -/
theorem eval_parse_full_response :
    parse_generated_content
      ("### OPTIMIZED CV ###\ncv text\n### COVER LETTER ###\nletter\n### NETWORKING MESSAGE ###\nmsg\n### INTERVIEW TIPS ###\ntips") =
    ⟨"cv text", "letter", "msg", "tips"⟩ := by decide
/-- Evaluation check: a response with no markers yields all four
placeholders. -/
theorem eval_parse_no_markers :
    parse_generated_content ("no markers here") =
    ⟨"Erro: Seção ### OPTIMIZED CV ### não encontrada",
     "Erro: Seção ### COVER LETTER ### não encontrada",
     "Erro: Seção ### NETWORKING MESSAGE ### não encontrada",
     "Erro: Seção ### INTERVIEW TIPS ### não encontrada"⟩ := by decide
/-- Evaluation check of the tokenizer: punctuation splits tokens except for
the token characters + # . , diacritics are stripped, text is lowercased. -/
theorem eval_extract_tokens : extractTokens ("Python, FastAPI. Não APENAS isso") =
    ["python", "fastapi.", "nao", "apenas", "isso"] := by decide
/-- Evaluation check of Scenario C: 4 of 5 keywords matched gives
match_points 48, coverage_points 32, score 80, high label, coverage 0.8. -/
theorem eval_scenario_c :
    calculate_compatibility
      ("Python, FastAPI, Docker, AWS")
      ("python fastapi docker kubernetes aws python fastapi docker kubernetes aws") =
    ⟨80, "Alta compatibilidade", ["python", "fastapi", "docker", "aws"],
     ["kubernetes"], mkRat 4 5⟩ := by decide

/-! Structure lemmas: the validators and the scorer, unfolded branch by
branch. -/

theorem validate_content_eq (content : String)
    (h : ¬ (content = "" ∨ (pyStripS content).length = 0)) :
    validate_and_score_job_content content =
      ⟨30 ≤ contentFinalScore content, contentFinalScore content,
       contentReasons content⟩ := by
  simp only [validate_and_score_job_content]
  rw [if_neg h]
  simp only [contentFinalScore, contentScoreAfterErrors, contentBase,
    contentReasons, List.append_assoc, List.cons_append, List.nil_append]

theorem structuralPoints_le (n : Nat) : structuralPoints n ≤ 30 := by
  unfold structuralPoints
  split
  · omega
  · split
    · omega
    · split <;> omega

theorem diversityPoints_le (content : String) : diversityPoints content ≤ 15 := by
  unfold diversityPoints
  split
  · omega
  · split
    · omega
    · split <;> omega

theorem content_score_le_100 (content : String) :
    (validate_and_score_job_content content).score ≤ 100 := by
  by_cases h : content = "" ∨ (pyStripS content).length = 0
  · simp only [validate_and_score_job_content]
    rw [if_pos h]
    exact Nat.zero_le _
  · rw [validate_content_eq content h]
    have h1 := structuralPoints_le (pyStripS content).length
    have h2 : criticalScorePts (foundCritical (pyLower content)) ≤ 20 :=
      Nat.min_le_left _ _
    have h3 : contextScorePts (foundContext (pyLower content)) ≤ 20 :=
      Nat.min_le_left _ _
    have h4 := diversityPoints_le content
    show contentFinalScore content ≤ 100
    unfold contentFinalScore
    split
    · exact Nat.min_le_left _ _
    · unfold contentScoreAfterErrors contentBase
      split <;> omega

theorem titlePoints_cases (n : Nat) : titlePoints n = 0 ∨ titlePoints n = 50 := by
  unfold titlePoints
  split
  · exact Or.inl rfl
  · split
    · exact Or.inl rfl
    · exact Or.inr rfl

theorem companyPoints_cases (n : Nat) : companyPoints n = 0 ∨ companyPoints n = 50 := by
  unfold companyPoints
  split
  · exact Or.inl rfl
  · split
    · exact Or.inl rfl
    · exact Or.inr rfl

theorem titlePoints_eq_50_iff (n : Nat) : titlePoints n = 50 ↔ (5 ≤ n ∧ n ≤ 100) := by
  unfold titlePoints
  split
  · next h => simp; omega
  · split
    · next h => simp; omega
    · next h1 h2 => simp; omega

theorem companyPoints_eq_50_iff (n : Nat) : companyPoints n = 50 ↔ (2 ≤ n ∧ n ≤ 100) := by
  unfold companyPoints
  split
  · next h => simp; omega
  · split
    · next h => simp; omega
    · next h1 h2 => simp; omega

theorem details_score_le_100 (title company : String) :
    (validate_and_score_job_details title company).score ≤ 100 := by
  have ht := titlePoints_cases (pyStripS (pyLower title)).length
  have hc := companyPoints_cases (pyStripS (pyLower company)).length
  simp only [validate_and_score_job_details]
  split
  · exact Nat.zero_le _
  · split
    · exact Nat.zero_le _
    · split
      · exact Nat.zero_le _
      · split
        · exact Nat.zero_le _
        · show titlePoints _ + companyPoints _ ≤ 100
          rcases ht with ht | ht <;> rcases hc with hc | hc <;> omega

theorem compat_no_keywords (cv job : String)
    (h : counterItems (extractTokens job) = []) :
    calculate_compatibility cv job = ⟨50, "Dados insuficientes", [], [], 0⟩ := by
  simp only [calculate_compatibility, h]
  rfl

theorem compat_sparse (cv job : String)
    (h1 : counterItems (extractTokens job) ≠ [])
    (h2 : (rankedJobKeywords job).length < 5 ∨
      ((counterItems (extractTokens job)).map Prod.snd).sum < 10) :
    calculate_compatibility cv job =
      ⟨50, "Dados insuficientes", [], (rankedJobKeywords job).take 5, 0⟩ := by
  have hne : (counterItems (extractTokens job)).isEmpty = false := by
    simpa [List.isEmpty_iff] using h1
  have h2r : (((sortDesc (counterItems (extractTokens job))).take 30).map
      Prod.fst).length < 5 ∨
      ((counterItems (extractTokens job)).map Prod.snd).sum < 10 := h2
  simp only [calculate_compatibility, hne]
  rw [if_neg (by simp), if_pos h2r]
  rfl

theorem compat_main_eq (cv job : String)
    (h1 : counterItems (extractTokens job) ≠ [])
    (h2 : ¬ ((rankedJobKeywords job).length < 5 ∨
      ((counterItems (extractTokens job)).map Prod.snd).sum < 10)) :
    calculate_compatibility cv job =
      ⟨compatScoreOf cv job,
       compatLabelOf (compatScoreOf cv job),
       ((mostCommonKeywords job).filter (fun kw => kw ∈ matchedKeywords cv job)).take 5,
       ((mostCommonKeywords job).filter (fun kw => kw ∈ missingKeywords cv job)).take 5,
       round3 (mkRat ((matchedKeywords cv job).length : Int)
         (max 1 (rankedJobKeywords job).length))⟩ := by
  have hne : (counterItems (extractTokens job)).isEmpty = false := by
    simpa [List.isEmpty_iff] using h1
  have h2r : ¬ ((((sortDesc (counterItems (extractTokens job))).take 30).map
      Prod.fst).length < 5 ∨
      ((counterItems (extractTokens job)).map Prod.snd).sum < 10) := h2
  simp only [calculate_compatibility, hne]
  rw [if_neg (by simp), if_neg h2r]
  rfl

theorem mkRat_nat_nonneg (a b : Nat) : (0 : ℚ) ≤ mkRat (a : Int) b := by
  rw [mkRat_nat_eq_div]
  positivity

theorem mkRat_nat_le_one (a b : Nat) (hab : a ≤ b) : mkRat (a : Int) b ≤ 1 := by
  rw [mkRat_nat_eq_div]
  rcases Nat.eq_zero_or_pos b with hb | hb
  · subst hb
    rcases Nat.le_zero.mp hab with rfl
    norm_num
  · rw [div_le_one (by exact_mod_cast hb)]
    exact_mod_cast hab

theorem round3_nonneg (q : ℚ) (h : 0 ≤ q) : 0 ≤ round3 q := by
  rw [round3_eq]
  apply div_nonneg _ (by norm_num)
  exact_mod_cast rhe_nonneg _ (by positivity)

theorem round3_le_one (q : ℚ) (_h0 : 0 ≤ q) (h1 : q ≤ 1) : round3 q ≤ 1 := by
  rw [round3_eq]
  rw [div_le_one (by norm_num)]
  have : rhe (q * 1000) ≤ (1000 : ℤ) := by
    apply rhe_le_intCast
    push_cast
    nlinarith
  exact_mod_cast this

/-- C3 helper: the compatibility score is in [5, 100] on the main path and
exactly 50 on the sentinel paths. -/
theorem compat_score_bounds (cv job : String) :
    (5 ≤ (calculate_compatibility cv job).score ∧
      (calculate_compatibility cv job).score ≤ 100) ∨
    (calculate_compatibility cv job).score = 50 := by
  by_cases hE : counterItems (extractTokens job) = []
  · rw [compat_no_keywords cv job hE]
    exact Or.inr rfl
  · by_cases hS : (rankedJobKeywords job).length < 5 ∨
        ((counterItems (extractTokens job)).map Prod.snd).sum < 10
    · rw [compat_sparse cv job hE hS]
      exact Or.inr rfl
    · rw [compat_main_eq cv job hE hS]
      left
      constructor
      · exact le_max_left _ _
      · show compatScoreOf cv job ≤ 100
        unfold compatScoreOf
        have hmp : min 60 ((matchedKeywords cv job).length * 12) ≤ 60 :=
          Nat.min_le_left _ _
        have hcp : min 40 (rheMulNat
            (mkRat ((matchedKeywords cv job).length : Int)
              (max 1 (rankedJobKeywords job).length)) 40).toNat ≤ 40 :=
          Nat.min_le_left _ _
        omega

/-- C3 helper: the reported coverage ratio is in [0, 1]. -/
theorem compat_cov_bounds (cv job : String) :
    0 ≤ (calculate_compatibility cv job).coverage_ratio ∧
      (calculate_compatibility cv job).coverage_ratio ≤ 1 := by
  by_cases hE : counterItems (extractTokens job) = []
  · rw [compat_no_keywords cv job hE]
    norm_num
  · by_cases hS : (rankedJobKeywords job).length < 5 ∨
        ((counterItems (extractTokens job)).map Prod.snd).sum < 10
    · rw [compat_sparse cv job hE hS]
      norm_num
    · rw [compat_main_eq cv job hE hS]
      have hml : (matchedKeywords cv job).length ≤
          max 1 (rankedJobKeywords job).length := by
        have h1 : (matchedKeywords cv job).length ≤ (rankedJobKeywords job).length :=
          List.length_filter_le _ _
        omega
      constructor
      · exact round3_nonneg _ (mkRat_nat_nonneg _ _)
      · exact round3_le_one _ (mkRat_nat_nonneg _ _) (mkRat_nat_le_one _ _ hml)

/-- C3: every scorer stays in its documented range: the Content Validator and
the Details Validator return scores in [0, 100] (scores are naturals, so only
the upper bound is substantive), and the Compatibility Scorer returns a score
in [5, 100] or exactly the sentinel 50, with a coverage ratio in [0, 1]. -/
theorem c3_score_bounds (content title company cv job : String) :
    (validate_and_score_job_content content).score ≤ 100 ∧
    (validate_and_score_job_details title company).score ≤ 100 ∧
    ((5 ≤ (calculate_compatibility cv job).score ∧
       (calculate_compatibility cv job).score ≤ 100) ∨
      (calculate_compatibility cv job).score = 50) ∧
    0 ≤ (calculate_compatibility cv job).coverage_ratio ∧
    (calculate_compatibility cv job).coverage_ratio ≤ 1 :=
  ⟨content_score_le_100 content, details_score_le_100 title company,
   compat_score_bounds cv job, (compat_cov_bounds cv job).1,
   (compat_cov_bounds cv job).2⟩

/-- C4: the Details Validator rejects on the generic-term blacklist only by
exact equality of the normalized form: a non-empty title whose normalized form
is blacklisted short-circuits to is_valid = false, score 0 and the single
title-specific reason, whatever the company is (the company is never
evaluated); and the company "Companhia ABC", whose normalized form is not a
blacklist entry, is accepted rather than rejected by any substring logic. -/
theorem c4_generic_exact_match :
    (∀ job_title company : String,
      pyStripS (pyLower job_title) ≠ "" →
      _normalize_generic_term job_title ∈ normalized_generics →
      validate_and_score_job_details job_title company =
        ⟨false, 0, ["Título genérico/inválido: \"" ++ job_title ++ "\""]⟩) ∧
    _normalize_generic_term ("Companhia ABC") ∉ normalized_generics ∧
    validate_and_score_job_details ("Engenheiro de Software") ("Companhia ABC") =
      ⟨true, 100, ["✓ Título válido", "✓ Empresa válida"]⟩ := by
  refine ⟨?_, by decide, by decide⟩
  intro jt comp h1 h2
  have hg : ¬ (jt = "" ∨ (pyStripS (pyLower jt)).length = 0) := by
    rintro (rfl | hlen)
    · exact h1 (by decide)
    · apply h1
      have hd : (pyStripS (pyLower jt)).data = [] := List.length_eq_zero.mp hlen
      exact congrArg String.mk hd
  simp only [validate_and_score_job_details]
  rw [if_neg hg, if_pos h2]

/-- C4 witness: Scenario B — title "Not Found", company "Acme". -/
theorem c4_witness :
    validate_and_score_job_details ("Not Found") ("Acme") =
      ⟨false, 0, ["Título genérico/inválido: \"Not Found\""]⟩ :=
  c4_generic_exact_match.1 ("Not Found") ("Acme") (by decide) (by decide)

/-- C5: the structural layer awards 0/10/20/30 points by the 500/1000/3000
length bands of the stripped content, the full validator's score is the final
score built from those structural points, and content of exactly 499 (resp.
500) characters scores 30 (resp. 40) overall — the 10-point band step. -/
theorem c5_structural_bands :
    (∀ n : Nat,
      (n < 500 → structuralPoints n = 0) ∧
      (500 ≤ n → n < 1000 → structuralPoints n = 10) ∧
      (1000 ≤ n → n < 3000 → structuralPoints n = 20) ∧
      (3000 ≤ n → structuralPoints n = 30)) ∧
    (∀ content : String,
      ¬ (content = "" ∨ (pyStripS content).length = 0) →
      (validate_and_score_job_content content).score = contentFinalScore content) ∧
    (validate_and_score_job_content (strRep 499 'a')).score = 30 ∧
    (validate_and_score_job_content (strRep 500 'a')).score = 40 := by
  refine ⟨?_, ?_, by decide, by decide⟩
  · intro n
    refine ⟨fun h => ?_, fun h1 h2 => ?_, fun h1 h2 => ?_, fun h => ?_⟩ <;>
      unfold structuralPoints
    · rw [if_pos h]
    · rw [if_neg (by omega), if_pos h2]
    · rw [if_neg (by omega), if_neg (by omega), if_pos h2]
    · rw [if_neg (by omega), if_neg (by omega), if_neg (by omega)]
  · intro content h
    rw [validate_content_eq content h]

/-- C5 witness: the band edges at 499 and 500, and the link between validator
and structural layer at a concrete content. -/
theorem c5_witness :
    structuralPoints 499 = 0 ∧ structuralPoints 500 = 10 ∧
    (validate_and_score_job_content (strRep 400 'b')).score =
      contentFinalScore (strRep 400 'b') :=
  ⟨(c5_structural_bands.1 499).1 (by decide),
   (c5_structural_bands.1 500).2.1 (by decide) (by decide),
   c5_structural_bands.2.1 (strRep 400 'b') (by decide)⟩

theorem containsSub_append (n h s : List Char) (hc : containsSub n h = true) :
    containsSub n (h ++ s) = true := by
  induction h with
  | nil =>
    have hn : n = [] := by simpa [containsSub, List.isEmpty_iff] using hc
    subst hn
    cases s with
    | nil => rfl
    | cons c t => simp [containsSub]
  | cons c t ih =>
    simp only [List.cons_append, containsSub, Bool.or_eq_true] at hc ⊢
    rcases hc with hp | hrest
    · left
      rw [List.isPrefixOf_iff_prefix] at hp ⊢
      exact hp.trans (List.prefix_append _ _)
    · right
      exact ih hrest

theorem length_filter_mono {α : Type} (l : List α) (p q : α → Bool)
    (h : ∀ a, p a = true → q a = true) :
    (l.filter p).length ≤ (l.filter q).length := by
  induction l with
  | nil => simp
  | cons a t ih =>
    by_cases hp : p a = true
    · rw [List.filter_cons_of_pos hp, List.filter_cons_of_pos (h a hp)]
      simpa using ih
    · rw [List.filter_cons_of_neg (by simpa using hp)]
      cases hq : q a with
      | false =>
        rw [List.filter_cons_of_neg (by simp [hq])]
        exact ih
      | true =>
        rw [List.filter_cons_of_pos hq]
        simp only [List.length_cons]
        omega

/-- Appending text can only add keyword hits. -/
theorem keywordCount_mono (kws : List String) (t s : String) :
    (kws.filter (fun kw => containsSub kw.data (pyLower t).data)).length ≤
    (kws.filter (fun kw => containsSub kw.data (pyLower (t ++ s)).data)).length := by
  apply length_filter_mono
  intro kw hkw
  show containsSub kw.data ((t ++ s).data.map pyLowerChar) = true
  rw [show (t ++ s).data = t.data ++ s.data from rfl, List.map_append]
  exact containsSub_append _ _ _ hkw

/-- C6: appending a suffix never decreases the Content Validator's
semantic-layer points (critical-keyword points min(20, 5·hits) plus
context-keyword points min(20, 2·hits), hits counted by case-insensitive
substring presence). -/
theorem c6_semantic_monotone (t s : String) :
    semanticPoints t ≤ semanticPoints (t ++ s) := by
  unfold semanticPoints criticalScorePts contextScorePts foundCritical foundContext
  have h1 := keywordCount_mono critical_keywords t s
  have h2 := keywordCount_mono context_keywords t s
  exact Nat.add_le_add
    (min_le_min (le_refl 20) (Nat.mul_le_mul_right 5 h1))
    (min_le_min (le_refl 20) (Nat.mul_le_mul_right 2 h2))

/-- C1: on the main path (non-empty posting keyword multiset, at least 5
distinct keywords in the top-30 set, total occurrences at least 10) the
result is exactly: matched = top-30 ∩ résumé keywords, score =
max(5, min(60, 12·|matched|) + min(40, round(|matched|/|top-30|·40))), label
by the ≥75 / 45–74 thresholds (`compatLabelOf`), strengths and gaps the
matched and missing keywords in posting-frequency order truncated to 5, and
coverage ratio |matched|/|top-30| rounded (half to even) to 3 decimals. -/
theorem c1_main_path_scoring (cv job : String)
    (h1 : counterItems (extractTokens job) ≠ [])
    (h2 : 5 ≤ (rankedJobKeywords job).length)
    (h3 : 10 ≤ ((counterItems (extractTokens job)).map Prod.snd).sum) :
    calculate_compatibility cv job =
      ⟨max 5 (min 60 ((matchedKeywords cv job).length * 12) +
         min 40 (rhe (((matchedKeywords cv job).length : ℚ) /
           ((rankedJobKeywords job).length : ℚ) * 40)).toNat),
       compatLabelOf (max 5 (min 60 ((matchedKeywords cv job).length * 12) +
         min 40 (rhe (((matchedKeywords cv job).length : ℚ) /
           ((rankedJobKeywords job).length : ℚ) * 40)).toNat)),
       ((mostCommonKeywords job).filter (fun kw => kw ∈ matchedKeywords cv job)).take 5,
       ((mostCommonKeywords job).filter (fun kw => kw ∈ missingKeywords cv job)).take 5,
       (rhe (((matchedKeywords cv job).length : ℚ) /
         ((rankedJobKeywords job).length : ℚ) * 1000) : ℚ) / 1000⟩ := by
  have h2' : ¬ ((rankedJobKeywords job).length < 5 ∨
      ((counterItems (extractTokens job)).map Prod.snd).sum < 10) := by
    push_neg
    exact ⟨h2, h3⟩
  rw [compat_main_eq cv job h1 h2']
  have hk : max 1 (rankedJobKeywords job).length = (rankedJobKeywords job).length :=
    max_eq_right (by omega)
  have hs : compatScoreOf cv job =
      max 5 (min 60 ((matchedKeywords cv job).length * 12) +
        min 40 (rhe (((matchedKeywords cv job).length : ℚ) /
          ((rankedJobKeywords job).length : ℚ) * 40)).toNat) := by
    unfold compatScoreOf
    rw [hk, rheMulNat_eq, mkRat_nat_eq_div]
    norm_num
  have hc : round3 (mkRat ((matchedKeywords cv job).length : Int)
      (max 1 (rankedJobKeywords job).length)) =
      (rhe (((matchedKeywords cv job).length : ℚ) /
        ((rankedJobKeywords job).length : ℚ) * 1000) : ℚ) / 1000 := by
    rw [hk, round3_eq, mkRat_nat_eq_div]
  rw [hs, hc]

set_option maxHeartbeats 2000000 in
/-- C1 witness: Scenario C — résumé "Python, FastAPI, Docker, AWS" against a
posting with 5 distinct keywords and 10 occurrences. -/
theorem c1_witness :
    calculate_compatibility ("Python, FastAPI, Docker, AWS")
      ("python fastapi docker kubernetes aws python fastapi docker kubernetes aws") =
      ⟨max 5 (min 60 ((matchedKeywords ("Python, FastAPI, Docker, AWS")
           ("python fastapi docker kubernetes aws python fastapi docker kubernetes aws")).length * 12) +
         min 40 (rhe (((matchedKeywords ("Python, FastAPI, Docker, AWS")
             ("python fastapi docker kubernetes aws python fastapi docker kubernetes aws")).length : ℚ) /
           ((rankedJobKeywords
             ("python fastapi docker kubernetes aws python fastapi docker kubernetes aws")).length : ℚ) * 40)).toNat),
       compatLabelOf (max 5 (min 60 ((matchedKeywords ("Python, FastAPI, Docker, AWS")
           ("python fastapi docker kubernetes aws python fastapi docker kubernetes aws")).length * 12) +
         min 40 (rhe (((matchedKeywords ("Python, FastAPI, Docker, AWS")
             ("python fastapi docker kubernetes aws python fastapi docker kubernetes aws")).length : ℚ) /
           ((rankedJobKeywords
             ("python fastapi docker kubernetes aws python fastapi docker kubernetes aws")).length : ℚ) * 40)).toNat)),
       ((mostCommonKeywords
           ("python fastapi docker kubernetes aws python fastapi docker kubernetes aws")).filter
         (fun kw => kw ∈ matchedKeywords ("Python, FastAPI, Docker, AWS")
           ("python fastapi docker kubernetes aws python fastapi docker kubernetes aws"))).take 5,
       ((mostCommonKeywords
           ("python fastapi docker kubernetes aws python fastapi docker kubernetes aws")).filter
         (fun kw => kw ∈ missingKeywords ("Python, FastAPI, Docker, AWS")
           ("python fastapi docker kubernetes aws python fastapi docker kubernetes aws"))).take 5,
       (rhe (((matchedKeywords ("Python, FastAPI, Docker, AWS")
           ("python fastapi docker kubernetes aws python fastapi docker kubernetes aws")).length : ℚ) /
         ((rankedJobKeywords
           ("python fastapi docker kubernetes aws python fastapi docker kubernetes aws")).length : ℚ) * 1000) : ℚ) / 1000⟩ :=
  c1_main_path_scoring ("Python, FastAPI, Docker, AWS")
    ("python fastapi docker kubernetes aws python fastapi docker kubernetes aws")
    (by decide) (by decide) (by decide)

/-- On the main path the returned label is the thresholded label of the
returned score. -/
theorem compat_main_label (cv job : String)
    (h1 : counterItems (extractTokens job) ≠ [])
    (h2 : ¬ ((rankedJobKeywords job).length < 5 ∨
      ((counterItems (extractTokens job)).map Prod.snd).sum < 10)) :
    (calculate_compatibility cv job).label = compatLabelOf (compatScoreOf cv job) := by
  rw [compat_main_eq cv job h1 h2]

/-- On the main path the label is one of the three graded labels, never the
sentinel label. -/
theorem compat_main_label_ne (cv job : String)
    (h1 : counterItems (extractTokens job) ≠ [])
    (h2 : ¬ ((rankedJobKeywords job).length < 5 ∨
      ((counterItems (extractTokens job)).map Prod.snd).sum < 10)) :
    (calculate_compatibility cv job).label ≠ "Dados insuficientes" := by
  rw [compat_main_label cv job h1 h2]
  unfold compatLabelOf
  split
  · decide
  · split
    · decide
    · decide

/-- C2: the insufficient-data sentinel (score 50, label "Dados insuficientes",
no strengths, coverage 0) is returned exactly when the posting yields no
keywords, or fewer than 5 distinct keywords, or fewer than 10 total keyword
occurrences; with no keywords the gaps are empty, in the sparse cases the gaps
are the posting's top keywords truncated to 5; and
calculate_compatibility("", "") is the sentinel with empty gaps. -/
theorem c2_sentinel_iff :
    (∀ cv job : String,
      (((calculate_compatibility cv job).score = 50 ∧
        (calculate_compatibility cv job).label = "Dados insuficientes" ∧
        (calculate_compatibility cv job).strengths = [] ∧
        (calculate_compatibility cv job).coverage_ratio = 0) ↔
       (counterItems (extractTokens job) = [] ∨
        (rankedJobKeywords job).length < 5 ∨
        ((counterItems (extractTokens job)).map Prod.snd).sum < 10)) ∧
      (counterItems (extractTokens job) = [] →
        (calculate_compatibility cv job).gaps = []) ∧
      (counterItems (extractTokens job) ≠ [] →
        ((rankedJobKeywords job).length < 5 ∨
          ((counterItems (extractTokens job)).map Prod.snd).sum < 10) →
        (calculate_compatibility cv job).gaps = (rankedJobKeywords job).take 5 ∧
          (calculate_compatibility cv job).gaps.length ≤ 5)) ∧
    calculate_compatibility ("") ("") = ⟨50, "Dados insuficientes", [], [], 0⟩ := by
  constructor
  · intro cv job
    by_cases hE : counterItems (extractTokens job) = []
    · rw [compat_no_keywords cv job hE]
      exact ⟨⟨fun _ => Or.inl hE, fun _ => ⟨rfl, rfl, rfl, rfl⟩⟩,
        fun _ => rfl, fun hne _ => absurd hE hne⟩
    · by_cases hS : (rankedJobKeywords job).length < 5 ∨
          ((counterItems (extractTokens job)).map Prod.snd).sum < 10
      · rw [compat_sparse cv job hE hS]
        refine ⟨⟨fun _ => Or.inr hS, fun _ => ⟨rfl, rfl, rfl, rfl⟩⟩,
          fun hE' => absurd hE' hE, fun _ _ => ⟨rfl, ?_⟩⟩
        show ((rankedJobKeywords job).take 5).length ≤ 5
        rw [List.length_take]
        exact Nat.min_le_left _ _
      · have hlne := compat_main_label_ne cv job hE hS
        refine ⟨⟨fun hsent => absurd hsent.2.1 hlne, fun hcond => ?_⟩,
          fun hE' => absurd hE' hE, fun _ hcond => absurd hcond hS⟩
        exfalso
        rcases hcond with hc | hc
        · exact hE hc
        · exact hS hc
  · decide

/-- C2 witness: a posting with only two keywords is sparse — the sentinel gaps
are its top keywords, at most 5 of them. -/
theorem c2_witness :
    (calculate_compatibility ("abc") ("python java")).gaps =
      (rankedJobKeywords ("python java")).take 5 ∧
    (calculate_compatibility ("abc") ("python java")).gaps.length ≤ 5 :=
  (c2_sentinel_iff.1 ("abc") ("python java")).2.2 (by decide) (by decide)

/-- C7 counterexample: "abc" is non-empty, non-whitespace content, yet the
validator emits only 4 reasons — there is no lexical-diversity entry, because
"abc" has no word longer than 3 characters, so the claimed "one entry for each
of the five layer decisions" fails. -/
theorem c7_counterexample :
    pyStripS ("abc") ≠ "" ∧
    (validate_and_score_job_content ("abc")).reasons =
      ["Conteúdo muito curto (3 chars, mínimo 500)",
       "0/8 palavras-chave críticas encontradas (0 pts)",
       "0/12 palavras de contexto encontradas (0 pts)",
       "Nenhum indicador de erro detectado"] ∧
    (validate_and_score_job_content ("abc")).reasons.length = 4 :=
  ⟨by decide, by decide, by decide⟩

/-- C7 (amended): for non-empty content the reasons list is one entry per
layer decision in evaluation order — structural band, critical keywords,
context keywords, then (only when the content has a word longer than 3
characters) lexical diversity, then the error-indicator scan, then (only when
list markup is detected) the list-structure bonus; and the reasons list is
non-empty whenever is_valid is false. -/
theorem c7_reasons_per_layer :
    (∀ content : String,
      ¬ (content = "" ∨ (pyStripS content).length = 0) →
      (validate_and_score_job_content content).reasons =
        [structuralReason (pyStripS content).length,
         criticalReason (foundCritical (pyLower content)),
         contextReason (foundContext (pyLower content))] ++
        (if (longWords content).isEmpty then [] else [diversityReason content]) ++
        [if hasErrorIndicators (pyLower content) then
           "⚠️ Detectados indicadores de erro na página"
         else "Nenhum indicador de erro detectado"] ++
        (if hasListStructure content.data then
           ["✓ Estrutura de lista detectada (típico de vagas)"] else [])) ∧
    (∀ content : String,
      (validate_and_score_job_content content).is_valid = false →
      (validate_and_score_job_content content).reasons ≠ []) := by
  constructor
  · intro content h
    have h2 : (validate_and_score_job_content content).reasons = contentReasons content := by
      rw [validate_content_eq content h]
    rw [h2]
    rfl
  · intro content _
    by_cases h : content = "" ∨ (pyStripS content).length = 0
    · have he : validate_and_score_job_content content = ⟨false, 0, ["Conteúdo vazio"]⟩ := by
        simp only [validate_and_score_job_content]
        rw [if_pos h]
      rw [he]
      simp
    · have h2 : (validate_and_score_job_content content).reasons = contentReasons content := by
        rw [validate_content_eq content h]
      rw [h2]
      unfold contentReasons
      simp

/-- C7 witness: content with a context keyword and long words gets all five
layer entries, diversity included. -/
theorem c7_witness :
    (validate_and_score_job_content ("vaga de emprego")).reasons =
      ["Conteúdo muito curto (15 chars, mínimo 500)",
       "0/8 palavras-chave críticas encontradas (0 pts)",
       "1/12 palavras de contexto encontradas (2 pts)",
       "Boa diversidade lexical (100.0%)",
       "Nenhum indicador de erro detectado"] :=
  (c7_reasons_per_layer.1 ("vaga de emprego") (by decide)).trans (by decide)

theorem extractField_none (resp marker : String) (next : Option String)
    (h : pyFind resp marker = none) :
    extractField resp marker next = "Erro: Seção " ++ marker ++ " não encontrada" := by
  unfold extractField
  rw [h]

theorem extractField_some (resp marker : String) (next : Option String) (i : Nat)
    (h : pyFind resp marker = some i) :
    extractField resp marker next =
      pyStripS ⟨(resp.data.take (sectionEnd resp next i)).drop (i + marker.length)⟩ := by
  unfold extractField
  rw [h]

/-- C8: the parser always returns exactly the four named fields, each split
out of the response by the position of its fixed marker (slice from the end
of the marker to the next marker's position, stripped); a field whose marker
is absent is set to its placeholder error string, and the remaining fields
are still extracted independently. -/
theorem c8_section_parsing (resp : String) :
    ((parse_generated_content resp).optimizedCv =
       extractField resp cvMarker (some clMarker) ∧
     (parse_generated_content resp).coverLetter =
       extractField resp clMarker (some nmMarker) ∧
     (parse_generated_content resp).networkingMessage =
       extractField resp nmMarker (some itMarker) ∧
     (parse_generated_content resp).interviewTips =
       extractField resp itMarker none) ∧
    (∀ marker : String, ∀ next : Option String,
      pyFind resp marker = none →
      extractField resp marker next =
        "Erro: Seção " ++ marker ++ " não encontrada") ∧
    (∀ marker : String, ∀ next : Option String, ∀ i : Nat,
      pyFind resp marker = some i →
      extractField resp marker next =
        pyStripS ⟨(resp.data.take (sectionEnd resp next i)).drop
          (i + marker.length)⟩) :=
  ⟨⟨rfl, rfl, rfl, rfl⟩,
   fun marker next h => extractField_none resp marker next h,
   fun marker next i h => extractField_some resp marker next i h⟩

/-- C8 witness: a response missing the COVER LETTER marker gets the
placeholder for that field while the other sections are still extracted. -/
theorem c8_witness :
    (parse_generated_content
      ("### OPTIMIZED CV ###\ncv body\n### NETWORKING MESSAGE ###\nmsg\n### INTERVIEW TIPS ###\ntips")).coverLetter =
      "Erro: Seção ### COVER LETTER ### não encontrada" ∧
    (parse_generated_content
      ("### OPTIMIZED CV ###\ncv body\n### NETWORKING MESSAGE ###\nmsg\n### INTERVIEW TIPS ###\ntips")).networkingMessage =
      "msg" := by
  have h := c8_section_parsing
    ("### OPTIMIZED CV ###\ncv body\n### NETWORKING MESSAGE ###\nmsg\n### INTERVIEW TIPS ###\ntips")
  constructor
  · exact (h.1.2.1.trans (h.2.1 clMarker (some nmMarker) (by decide))).trans (by decide)
  · exact (h.1.2.2.1.trans (h.2.2 nmMarker (some itMarker) 29 (by decide))).trans (by decide)

/-- When neither field is missing or blacklisted, the Details Validator
returns the sum of the two length-band scores and the two band reasons. -/
theorem validate_details_main_eq (title company : String)
    (h1 : ¬ (title = "" ∨ (pyStripS (pyLower title)).length = 0))
    (h2 : _normalize_generic_term title ∉ normalized_generics)
    (h3 : ¬ (company = "" ∨ (pyStripS (pyLower company)).length = 0))
    (h4 : _normalize_generic_term company ∉ normalized_generics) :
    validate_and_score_job_details title company =
      ⟨90 ≤ titlePoints (pyStripS (pyLower title)).length +
         companyPoints (pyStripS (pyLower company)).length,
       titlePoints (pyStripS (pyLower title)).length +
         companyPoints (pyStripS (pyLower company)).length,
       [titleReason title (pyStripS (pyLower title)).length,
        companyReason company (pyStripS (pyLower company)).length]⟩ := by
  simp only [validate_and_score_job_details]
  rw [if_neg h1, if_neg h2, if_neg h3, if_neg h4]

/-- C9 counterexample: title "Not Found" (9 chars, inside the 5–100 band) and
company "Acme" (4 chars, inside the 2–100 band) — both character bands pass,
yet the validator rejects with score 0, so "is_valid iff both bands pass" is
false as stated (the blacklist gate also matters). -/
theorem c9_counterexample :
    (validate_and_score_job_details ("Not Found") ("Acme")).is_valid = false ∧
    (validate_and_score_job_details ("Not Found") ("Acme")).score = 0 ∧
    5 ≤ (pyStripS (pyLower ("Not Found"))).length ∧
    (pyStripS (pyLower ("Not Found"))).length ≤ 100 ∧
    2 ≤ (pyStripS (pyLower ("Acme"))).length ∧
    (pyStripS (pyLower ("Acme"))).length ≤ 100 := by
  refine ⟨by decide, by decide, by decide, by decide, by decide, by decide⟩

/-- C9 (amended): the Details Validator's score is always 0, 50 or 100 (90 is
unreachable); is_valid holds exactly when the score is 100; and provided
neither field is empty/whitespace and neither normalized form is on the
generic-term blacklist, is_valid holds exactly when the title is 5–100
characters and the company 2–100 characters (no partial credit). -/
theorem c9_details_score_set (title company : String) :
    ((validate_and_score_job_details title company).score = 0 ∨
     (validate_and_score_job_details title company).score = 50 ∨
     (validate_and_score_job_details title company).score = 100) ∧
    ((validate_and_score_job_details title company).is_valid = true ↔
      (validate_and_score_job_details title company).score = 100) ∧
    (¬ (title = "" ∨ (pyStripS (pyLower title)).length = 0) →
     _normalize_generic_term title ∉ normalized_generics →
     ¬ (company = "" ∨ (pyStripS (pyLower company)).length = 0) →
     _normalize_generic_term company ∉ normalized_generics →
     ((validate_and_score_job_details title company).is_valid = true ↔
       (5 ≤ (pyStripS (pyLower title)).length ∧
        (pyStripS (pyLower title)).length ≤ 100 ∧
        2 ≤ (pyStripS (pyLower company)).length ∧
        (pyStripS (pyLower company)).length ≤ 100))) := by
  have ht0 := titlePoints_cases (pyStripS (pyLower title)).length
  have hc0 := companyPoints_cases (pyStripS (pyLower company)).length
  refine ⟨?_, ?_, ?_⟩
  · simp only [validate_and_score_job_details]
    split
    · exact Or.inl rfl
    · split
      · exact Or.inl rfl
      · split
        · exact Or.inl rfl
        · split
          · exact Or.inl rfl
          · show titlePoints (pyStripS (pyLower title)).length +
                companyPoints (pyStripS (pyLower company)).length = 0 ∨
              titlePoints (pyStripS (pyLower title)).length +
                companyPoints (pyStripS (pyLower company)).length = 50 ∨
              titlePoints (pyStripS (pyLower title)).length +
                companyPoints (pyStripS (pyLower company)).length = 100
            rcases ht0 with ht | ht <;> rcases hc0 with hc | hc <;> omega
  · simp only [validate_and_score_job_details]
    split
    · simp
    · split
      · simp
      · split
        · simp
        · split
          · simp
          · show decide (90 ≤ titlePoints (pyStripS (pyLower title)).length +
                companyPoints (pyStripS (pyLower company)).length) = true ↔
              titlePoints (pyStripS (pyLower title)).length +
                companyPoints (pyStripS (pyLower company)).length = 100
            rw [decide_eq_true_eq]
            rcases ht0 with ht | ht <;> rcases hc0 with hc | hc <;> omega
  · intro h1 h2 h3 h4
    rw [validate_details_main_eq title company h1 h2 h3 h4]
    show decide (90 ≤ titlePoints (pyStripS (pyLower title)).length +
        companyPoints (pyStripS (pyLower company)).length) = true ↔ _
    rw [decide_eq_true_eq]
    have ht := titlePoints_eq_50_iff (pyStripS (pyLower title)).length
    have hc := companyPoints_eq_50_iff (pyStripS (pyLower company)).length
    constructor
    · intro h90
      have htp : titlePoints (pyStripS (pyLower title)).length = 50 := by
        rcases ht0 with h | h <;> rcases hc0 with h2 | h2 <;> omega
      have hcp : companyPoints (pyStripS (pyLower company)).length = 50 := by
        rcases ht0 with h | h <;> rcases hc0 with h2 | h2 <;> omega
      obtain ⟨a, b⟩ := ht.mp htp
      obtain ⟨c, d⟩ := hc.mp hcp
      exact ⟨a, b, c, d⟩
    · rintro ⟨a, b, c, d⟩
      have htp := ht.mpr ⟨a, b⟩
      have hcp := hc.mpr ⟨c, d⟩
      omega

/-- C9 witness: a well-formed pair is accepted, per the amended band
characterization. -/
theorem c9_witness :
    (validate_and_score_job_details ("Analista de Dados") ("Globex")).is_valid = true :=
  ((c9_details_score_set ("Analista de Dados") ("Globex")).2.2
    (by decide) (by decide) (by decide) (by decide)).mpr (by decide)

/-- C10: any non-empty content containing the bare substring "erro" or
"error" (case-insensitively) — e.g. inside "error handling" — takes the
error-indicator branch: the score is the layers' base minus 30 (floored at 0
by Nat subtraction, then the optional capped list bonus), the +15 no-error
bonus is withheld, and the warning reason is appended. -/
theorem c10_error_indicator (content : String)
    (h0 : ¬ (content = "" ∨ (pyStripS content).length = 0))
    (h1 : containsSub ("erro").data (pyLower content).data = true ∨
          containsSub ("error").data (pyLower content).data = true) :
    hasErrorIndicators (pyLower content) = true ∧
    (validate_and_score_job_content content).score =
      (if hasListStructure content.data then
         min 100 (contentBase content - 30 + 5)
       else contentBase content - 30) ∧
    "⚠️ Detectados indicadores de erro na página" ∈
      (validate_and_score_job_content content).reasons ∧
    "Nenhum indicador de erro detectado" ∉
      ([if hasErrorIndicators (pyLower content) then
          "⚠️ Detectados indicadores de erro na página"
        else "Nenhum indicador de erro detectado"] : List String) := by
  have herr : hasErrorIndicators (pyLower content) = true := by
    unfold hasErrorIndicators
    rw [List.any_eq_true]
    rcases h1 with h | h
    · exact ⟨"erro", by decide, h⟩
    · exact ⟨"error", by decide, h⟩
  refine ⟨herr, ?_, ?_, ?_⟩
  · have h2 : (validate_and_score_job_content content).score = contentFinalScore content := by
      rw [validate_content_eq content h0]
    rw [h2]
    unfold contentFinalScore contentScoreAfterErrors
    rw [herr]
    simp
  · have h3 : (validate_and_score_job_content content).reasons = contentReasons content := by
      rw [validate_content_eq content h0]
    rw [h3]
    unfold contentReasons
    rw [herr]
    simp
  · rw [herr]
    simp

/-- C10 witness: "error handling" inside a legitimate requirements sentence
still triggers the error-indicator branch. -/
theorem c10_witness :
    hasErrorIndicators (pyLower
      ("Requisitos da vaga: experiencia com error handling e monitoramento")) = true ∧
    "⚠️ Detectados indicadores de erro na página" ∈
      (validate_and_score_job_content
        ("Requisitos da vaga: experiencia com error handling e monitoramento")).reasons := by
  have h := c10_error_indicator
    ("Requisitos da vaga: experiencia com error handling e monitoramento")
    (by decide) (Or.inr (by decide))
  exact ⟨h.1, h.2.2.1⟩
